import Mathlib

/-!
Verification development for the e-ink pet clock's refresh-coordination and
menu-navigation core (`src/core/display.py`, `src/core/menu_system.py`,
`src/core/button_handler.py`, `src/core/display_manager.py`).

The Python code is shallowly embedded as executable Lean functions:
- stateful objects become structures passed and returned explicitly;
- Python exceptions that an operation may let escape are modelled by an
  explicit `Option String` "raised" channel (`none` = normal return), and
  `try/except` blocks by pattern matches on `Except`;
- wall-clock timestamps (`time.time()`, seconds as floats) are modelled as
  integer milliseconds, so the 0.3 s throttle is the integer 300;
- external collaborators (pet mood, hardware availability, whether a
  particular render raises an I/O exception) enter as explicit parameters.

Commits requested by menus are recorded at the request level: `MenuCommit.full`
is a call of `DisplayManager.display(use_partial=False)` (or the base-image
path), `MenuCommit.partial` a call with `use_partial=True`.  How such requests
map to actual panel refreshes is embedded separately in `DispState`/`displayStep`.
-/

namespace EinkPetClock

/-- Commit kind requested of the low-level display by a menu render
(the `use_partial` argument of `DisplayManager.display`). -/
inductive MenuCommit where
  | fullCommit
  | partialCommit
  deriving DecidableEq, Repr

/-- Refresh kind actually performed by the panel. -/
inductive RefreshKind where
  | fullRefresh
  | partialRefresh
  deriving DecidableEq, Repr

/-! ## `core/display.py` — `DisplayManager` refresh bookkeeping

State of `core.display.DisplayManager` relevant to refresh strategy:
`update_count`, `last_full_refresh` (both counters) and `initialized`. -/

/-- Refresh-tracking state of `core.display.DisplayManager`. -/
structure DispState where
  updateCount : Nat
  lastFullRefresh : Nat
  initialized : Bool
  deriving DecidableEq, Repr

/-- `Config.FULL_REFRESH_CYCLES` (`core/config.py`). -/
def fullRefreshCycles : Nat := 10

/-- `DisplayManager.display(use_partial)` (`core/display.py` lines 122-157).
`imagePresent` models `self.image is not None`; when no image exists the call
returns without refreshing.  Returns the new state and the refresh performed,
if any. -/
def displayStep (imagePresent usePartial : Bool) (s : DispState) :
    DispState × Option RefreshKind :=
  if !imagePresent then (s, none)
  else
    let s := { s with updateCount := s.updateCount + 1 }
    let forceFull : Bool := decide (fullRefreshCycles ≤ s.updateCount - s.lastFullRefresh)
    if usePartial && !forceFull then
      ({ s with initialized := true }, some .partialRefresh)
    else
      ({ s with initialized := true, lastFullRefresh := s.updateCount },
        some .fullRefresh)

/-- Run a sequence of `n` commit requests, all with `use_partial = true`
and an image present, collecting the refresh kinds performed. -/
def runPartialRequests : Nat → DispState → DispState × List RefreshKind
  | 0, s => (s, [])
  | n + 1, s =>
      let r := displayStep true true s
      let rest := runPartialRequests n r.1
      (rest.1, r.2.toList ++ rest.2)

/-- Fresh `DisplayManager` refresh state (`update_count = 0`,
`last_full_refresh = 0`, not initialized). -/
def dispInit : DispState := ⟨0, 0, false⟩

/-! ## Button event queue

`display_manager.DisplayManager.process_button_events` drains button events
via `self.buttons.get_event(timeout=0)`, but the `ButtonHandler` class in
`src/core/button_handler.py` has no `get_event`/queue member. -/

/-- Button events named by the spec's external interface. -/
inductive ButtonEvent where
  | returnPress
  | actionPress
  | actionHold
  | goPress
  deriving DecidableEq, Repr

/-- Modelled from the spec: the single-slot (capacity-1) handoff queue of
`ButtonEventSource`, absent from `src/core/button_handler.py` (only its
consumer `process_button_events` appears in src).  Spec §5: "single-slot
(capacity-1) handoff queue ... Enqueue is non-blocking; if the slot is
already occupied, the new event is dropped."  The queue is the optional
content of its one slot. -/
abbrev EventSlot := Option ButtonEvent

/-- Modelled from the spec: non-blocking enqueue into the capacity-1 queue;
if the slot is occupied the new event is dropped. -/
def enqueueEvent (e : ButtonEvent) (q : EventSlot) : EventSlot :=
  match q with
  | some old => some old
  | none => some e

/-- Modelled from the spec: `get_event` (§6) returns the pending event, if
any, and empties the slot. -/
def getEvent (q : EventSlot) : Option ButtonEvent × EventSlot :=
  (q, none)

/-- Modelled from the spec: `has_event` (§6) reports slot occupancy. -/
def hasEvent (q : EventSlot) : Bool :=
  match q with
  | some _ => true
  | none => false

/-! ## `core/menu_system.py` — `TamagotchiMenu` animation and base-image state -/

/-- Pet moods: the domain of `TamagotchiMenu._get_animation_frames`'s
`animation_map` (which also covers every string `PetState.get_mood` can
return). -/
inductive Mood where
  | happy
  | neutral
  | sad
  | hungry
  | sick
  | sleeping
  | dead
  deriving DecidableEq, Repr

/-- `"{:02d}".format i` for `i < 100` (all frame counts here are ≤ 9). -/
def twoDigit (i : Nat) : String :=
  if i < 10 then "0" ++ toString i else toString i

/-- Frame filenames `base ++ "_frame{:02d}.png".format(i)` for `i ∈ [0, n)`. -/
def frameList (base : String) (n : Nat) : List String :=
  (List.range n).map fun i => base ++ "_frame" ++ twoDigit i ++ ".png"

/-- `TamagotchiMenu._get_animation_frames` (`core/menu_system.py` lines
97-109): the mood → frame-sequence table.  With `Mood` as the key type the
`.get(mood, animation_map["neutral"])` default is never taken. -/
def getAnimationFrames (mood : Mood) : List String :=
  match mood with
  | .happy => frameList "BunnyRun" 5
  | .neutral => frameList "BunnyIdle" 8
  | .sad => frameList "BunnyLieDown" 2
  | .hungry => frameList "BunnyAttack" 7
  | .sick => frameList "BunnyHurt" 3
  | .sleeping => frameList "BunnySleep" 2
  | .dead => frameList "BunnyDead" 9

/-- The static-sprite fallback table of `TamagotchiMenu.render` (lines
166-174), used only when `animation_frames` is empty. -/
def staticSprite (mood : Mood) : String :=
  match mood with
  | .happy => "happy.png"
  | .neutral => "neutral.png"
  | .sad => "sad.png"
  | .hungry => "excited.png"
  | .sick => "sick.png"
  | .sleeping => "sleeping.png"
  | .dead => "dead.png"

/-- The animation/base-image state of a `TamagotchiMenu` instance
(`__init__`, lines 77-95; the fixed pixel rectangles are omitted). -/
structure TamaState where
  currentFrame : Nat
  animationFrames : List String
  currentMood : Option Mood
  baseImageSet : Bool
  deriving DecidableEq, Repr

/-- `TamagotchiMenu.__init__`: frame 0, no frames, no mood, no base image. -/
def tamaInit : TamaState :=
  { currentFrame := 0, animationFrames := [], currentMood := none,
    baseImageSet := false }

/-- `TamagotchiMenu.advance_frame` (lines 111-114). -/
def advanceFrame (t : TamaState) : TamaState :=
  if t.animationFrames.isEmpty then t
  else { t with currentFrame := (t.currentFrame + 1) % t.animationFrames.length }

/-- The mood-synchronisation block shared by `TamagotchiMenu.render` (lines
155-159) and `update_sprite_only` (lines 277-281): if the observed mood
differs from `current_mood`, replace the frame sequence and reset the frame
index to 0. -/
def moodSync (mood : Mood) (t : TamaState) : TamaState :=
  if some mood ≠ t.currentMood then
    { t with currentMood := some mood,
             animationFrames := getAnimationFrames mood,
             currentFrame := 0 }
  else t

/-- The sprite-filename selection of `TamagotchiMenu.render` (lines 161-174):
index into `animation_frames` when non-empty (`none` models the `IndexError`
an out-of-range `current_frame` would raise), else the static fallback. -/
def spriteFilename (mood : Mood) (t : TamaState) : Option String :=
  if t.animationFrames.isEmpty then some (staticSprite mood)
  else t.animationFrames.get? t.currentFrame

/-- `TamagotchiMenu.render` (lines 120-254), at commit-request granularity.
`hasEPD` models the module-level `HAS_EPD`; `mood` the value of
`pet.get_mood()`; `ok` is `true` unless drawing or sprite/hardware I/O
raises (the raise is placed after the mood-sync block and frame lookup, so
that, as in Python, mutations made before the exception persist).  The third
component is the exception the call lets escape, if any.
The display strategy (lines 239-254): a base render or an unset base image
does `display(use_partial=False)` and, under EPD hardware
(`displayPartBaseImage`), establishes the base image; otherwise the partial
branch calls `self.display.display` with a `partial_mode` keyword that
`DisplayManager.display` does not accept, which raises `TypeError`. -/
def tamaRender (hasEPD ok isBaseRender : Bool) (mood : Mood) (t : TamaState) :
    TamaState × Option MenuCommit × Option String :=
  let t := moodSync mood t
  match spriteFilename mood t with
  | none => (t, none, some "IndexError: list index out of range")
  | some _ =>
    if !ok then (t, none, some "render exception")
    else if isBaseRender || !t.baseImageSet then
      let t := if hasEPD then { t with baseImageSet := true } else t
      (t, some .fullCommit, none)
    else
      (t, none,
        some "TypeError: display() got an unexpected keyword argument 'partial_mode'")

/-- `TamagotchiMenu.render_full` (lines 116-118): `render(is_base_render=True)`. -/
def tamaRenderFull (hasEPD ok : Bool) (mood : Mood) (t : TamaState) :
    TamaState × Option MenuCommit × Option String :=
  tamaRender hasEPD ok true mood t

/-- `TamagotchiMenu.update_time_only` (lines 314-350).  `displayValid` models
`display_obj.image and display_obj.draw` being set; `ok` is `true` unless the
redraw inside the `try` raises (the `except` then resets `base_image_set`).
The call to `render_full` is not inside a `try`, so an exception there
escapes.  `displayPartial` is only called under EPD hardware. -/
def updateTimeOnly (hasEPD displayValid ok : Bool) (mood : Mood) (t : TamaState) :
    TamaState × Option MenuCommit × Option String :=
  if !t.baseImageSet then
    tamaRenderFull hasEPD ok mood t
  else if !displayValid then
    ({ t with baseImageSet := false }, none, none)
  else if ok then
    (t, if hasEPD then some .partialCommit else none, none)
  else
    ({ t with baseImageSet := false }, none, none)

/-- `TamagotchiMenu.update_sprite_only` (lines 256-312).  Same conventions as
`updateTimeOnly`; `spriteExists` models `sprite_path.exists()` (nothing is
drawn or committed when the file is missing).  The frame lookup (line 285)
happens outside the `try` block, so an out-of-range index would escape. -/
def updateSpriteOnly (hasEPD displayValid spriteExists ok : Bool) (mood : Mood)
    (t : TamaState) : TamaState × Option MenuCommit × Option String :=
  if !t.baseImageSet then
    tamaRenderFull hasEPD ok mood t
  else if !displayValid then
    ({ t with baseImageSet := false }, none, none)
  else
    let t := moodSync mood t
    match (if t.animationFrames.isEmpty then some "neutral.png"
           else t.animationFrames.get? t.currentFrame) with
    | none => (t, none, some "IndexError: list index out of range")
    | some _ =>
      if spriteExists then
        if ok then (t, if hasEPD then some .partialCommit else none, none)
        else ({ t with baseImageSet := false }, none, none)
      else (t, none, none)

/-- `TamagotchiMenu.reset_base_image` (lines 352-354). -/
def resetBaseImage (t : TamaState) : TamaState :=
  { t with baseImageSet := false }

/-! ## `core/menu_system.py` — `MenuStateMachine`

The machine owns four menu instances; only `TamagotchiMenu` (index 0) has
animation/base-image state, the others only a cursor.  The lock is modelled
by its sequential semantics: operations run to completion, and the flag
mutations inside/outside the held lock follow the source order.  Timestamps
(`time.time()`) are integer milliseconds, so `_min_button_interval = 0.3` is
300. -/

/-- Mutable state of `MenuStateMachine` and its four menus
(`MenuStateMachine.__init__`, lines 597-619). -/
structure MSMState where
  tama : TamaState
  msgSelectedIndex : Nat
  statsPage : Nat
  settingsSelectedItem : Nat
  currentMenuIndex : Nat
  needsRender : Bool
  rendering : Bool
  inTransition : Bool
  lastButtonPress : Int
  renderFailures : Nat
  deriving DecidableEq, Repr

/-- `self._min_button_interval = 0.3` seconds, in milliseconds. -/
def minButtonInterval : Int := 300

/-- `self._max_render_failures = 3`. -/
def maxRenderFailures : Nat := 3

/-- `len(self.menus)`. -/
def numMenus : Nat := 4

/-- `MenuStateMachine.__init__`: index 0, `needs_render = True`, flags
clear, `_last_button_press = 0`, no failures. -/
def msmInit : MSMState :=
  { tama := tamaInit, msgSelectedIndex := 0, statsPage := 0,
    settingsSelectedItem := 0, currentMenuIndex := 0, needsRender := true,
    rendering := false, inTransition := false, lastButtonPress := 0,
    renderFailures := 0 }

/-- `MenuStateMachine.is_in_transition` (lines 626-628). -/
def isInTransition (s : MSMState) : Bool :=
  s.inTransition || s.rendering

/-- `MenuStateMachine._can_process_button` (lines 630-638): reject when less
than `_min_button_interval` has passed since `_last_button_press`; on
acceptance record `now` as the last press time. -/
def canProcessButton (now : Int) (s : MSMState) : Bool × MSMState :=
  if now - s.lastButtonPress < minButtonInterval then (false, s)
  else (true, { s with lastButtonPress := now })

/-- A menu render attempt at machine level: resulting machine state, the
commit requests issued, and the exception it let escape, if any. -/
abbrev RenderOutcome := MSMState × List MenuCommit × Option String

/-- `self.menus[0].render(is_base_render)` lifted to the machine state. -/
def runTamaRender (hasEPD ok isBaseRender : Bool) (mood : Mood) (s : MSMState) :
    RenderOutcome :=
  match tamaRender hasEPD ok isBaseRender mood s.tama with
  | (t, c, r) => ({ s with tama := t }, c.toList, r)

/-- A `render(use_partial)` of `MessagesMenu`, `StatsMenu` or `SettingsMenu`:
draws and requests one commit, no menu-state change; `ok` is `true` unless
drawing raises. -/
def runOtherRender (ok usePartial : Bool) (s : MSMState) : RenderOutcome :=
  if ok then (s, [if usePartial then .partialCommit else .fullCommit], none)
  else (s, [], some "render exception")

/-- Result of `MenuStateMachine._safe_render`: the machine state, the boolean
returned, the number of recovery renders of `self.menus[0]` attempted (0 or
1), the commits issued, and the exception let escape, if any (`_safe_render`
catches every exception, so `raised` is always `none`). -/
structure SafeRenderResult where
  state : MSMState
  success : Bool
  recoveryAttempts : Nat
  commits : List MenuCommit
  raised : Option String
  deriving DecidableEq, Repr

/-- `MenuStateMachine._safe_render(menu_func)` (lines 640-658).  On success
reset `_render_failures`; on exception increment it, and at the threshold
force the index to 0, reset the counter and try one recovery render of
`self.menus[0]` inside its own `try/except` (a failure there is only
logged). -/
def safeRender (hasEPD recoveryOk : Bool) (mood : Mood)
    (attempt : MSMState → RenderOutcome) (s : MSMState) : SafeRenderResult :=
  match attempt s with
  | (s', cs, none) => ⟨{ s' with renderFailures := 0 }, true, 0, cs, none⟩
  | (s', cs, some _) =>
      let s1 := { s' with renderFailures := s'.renderFailures + 1 }
      if maxRenderFailures ≤ s1.renderFailures then
        let s2 := { s1 with currentMenuIndex := 0, renderFailures := 0 }
        match runTamaRender hasEPD recoveryOk false mood s2 with
        | (s3, cs2, none) => ⟨s3, false, 1, cs ++ cs2, none⟩
        | (s3, cs2, some _) => ⟨s3, false, 1, cs ++ cs2, none⟩
      else ⟨s1, false, 0, cs, none⟩

/-- Result of one `MenuStateMachine` operation: final state, commit requests
issued, and the exception the operation let escape, if any. -/
structure OpResult where
  state : MSMState
  commits : List MenuCommit
  raised : Option String
  deriving DecidableEq, Repr

/-- `MenuStateMachine.next_menu` (lines 660-704).  Guard and throttle inside
the lock; then advance the index mod 4, invalidate every menu's base image,
full-render the destination through `_safe_render` (via `render_full` when
the destination is menu 0), and in the `finally` clear both flags. -/
def nextMenu (hasEPD renderOk recoveryOk : Bool) (mood : Mood) (now : Int)
    (s : MSMState) : OpResult :=
  if s.rendering || s.inTransition then ⟨s, [], none⟩
  else
    match canProcessButton now s with
    | (false, s) => ⟨s, [], none⟩
    | (true, s) =>
      let s := { s with inTransition := true, rendering := true }
      let s := { s with currentMenuIndex := (s.currentMenuIndex + 1) % numMenus,
                        needsRender := true }
      let s := { s with tama := resetBaseImage s.tama }
      let r :=
        if s.currentMenuIndex == 0 then
          safeRender hasEPD recoveryOk mood (runTamaRender hasEPD renderOk true mood) s
        else
          safeRender hasEPD recoveryOk mood (runOtherRender renderOk false) s
      let s := { r.state with needsRender := false }
      ⟨{ s with rendering := false, inTransition := false }, r.commits, none⟩

/-- `MenuStateMachine.handle_return` (lines 706-755).  On menu 0 the pet is
fed and the menu re-rendered directly (`on_return`, not safe-wrapped: its
exception escapes after the `finally`); on other menus transition to menu 0
with a safe-wrapped `render_full`.  The `finally` clears `_rendering`, but
clears `_in_transition` only when `current_menu_index != 0`. -/
def handleReturn (hasEPD renderOk recoveryOk : Bool) (mood : Mood) (now : Int)
    (s : MSMState) : OpResult :=
  if s.rendering || s.inTransition then ⟨s, [], none⟩
  else
    match canProcessButton now s with
    | (false, s) => ⟨s, [], none⟩
    | (true, s) =>
      if s.currentMenuIndex == 0 then
        let s := { s with rendering := true }
        match runTamaRender hasEPD renderOk false mood s with
        | (s, cs, r) =>
          let s := { s with rendering := false }
          let s := if s.currentMenuIndex != 0 then { s with inTransition := false }
                   else s
          ⟨s, cs, r⟩
      else
        let s := { s with inTransition := true, rendering := true }
        let s := { s with currentMenuIndex := 0, needsRender := true }
        let s := { s with tama := resetBaseImage s.tama }
        let r := safeRender hasEPD recoveryOk mood
                   (runTamaRender hasEPD renderOk true mood) s
        let s := { r.state with needsRender := false }
        let s := { s with rendering := false }
        let s := if s.currentMenuIndex != 0 then { s with inTransition := false }
                 else s
        ⟨s, r.commits, none⟩

/-- `Menu.on_go` of the menu at `current_menu_index` (dispatch of
`self.current_menu.on_go()`): menu 0 sends a poke (external, its errors are
absorbed) and re-renders; menu 1 advances the message cursor modulo
`min(len(messages), 3)` and re-renders when messages exist (`messagesShown`
is `len(messages)` with the limit 5 applied); menu 2 cycles the stats page;
menu 3 mutates a setting (external) and advances the settings cursor.  The
non-0 menus render with the default `use_partial=True`. -/
def runOnGo (hasEPD renderOk : Bool) (mood : Mood) (messagesShown : Nat)
    (s : MSMState) : RenderOutcome :=
  match s.currentMenuIndex with
  | 0 => runTamaRender hasEPD renderOk false mood s
  | 1 =>
      if messagesShown ≠ 0 then
        let s := { s with msgSelectedIndex :=
          (s.msgSelectedIndex + 1) % min messagesShown 3 }
        runOtherRender renderOk true s
      else (s, [], none)
  | 2 =>
      let s := { s with statsPage := (s.statsPage + 1) % 2 }
      runOtherRender renderOk true s
  | 3 =>
      let s := { s with settingsSelectedItem := (s.settingsSelectedItem + 1) % 3 }
      runOtherRender renderOk true s
  | _ => (s, [], some "IndexError: list index out of range")

/-- `MenuStateMachine.handle_go` (lines 761-776): only `_rendering` guards
(not `_in_transition`); `on_go` runs with `_rendering` held and the
`finally` clears it (an `on_go` exception escapes after the `finally`). -/
def handleGo (hasEPD renderOk : Bool) (mood : Mood) (now : Int)
    (messagesShown : Nat) (s : MSMState) : OpResult :=
  if s.rendering then ⟨s, [], none⟩
  else
    match canProcessButton now s with
    | (false, s) => ⟨s, [], none⟩
    | (true, s) =>
      let s := { s with rendering := true }
      match runOnGo hasEPD renderOk mood messagesShown s with
      | (s, cs, r) => ⟨{ s with rendering := false }, cs, r⟩

/-- `self.current_menu.render` with default arguments, as passed to
`_safe_render` by `render_current`: menu 0 renders with
`is_base_render=False`, the others with `use_partial=True`. -/
def runCurrentRender (hasEPD renderOk : Bool) (mood : Mood) (s : MSMState) :
    RenderOutcome :=
  if s.currentMenuIndex == 0 then runTamaRender hasEPD renderOk false mood s
  else if s.currentMenuIndex < numMenus then runOtherRender renderOk true s
  else (s, [], some "IndexError: list index out of range")

/-- `MenuStateMachine.render_current` (lines 778-796): non-blocking lock
acquisition (`acquired` is the `try_lock` outcome; in the sequential model a
free lock always yields `true`); render through `_safe_render` only when
`needs_render` and not already `_rendering`. -/
def renderCurrent (acquired hasEPD renderOk recoveryOk : Bool) (mood : Mood)
    (s : MSMState) : OpResult :=
  if !acquired then ⟨s, [], none⟩
  else if s.needsRender && !s.rendering then
    let s := { s with rendering := true }
    let r := safeRender hasEPD recoveryOk mood (runCurrentRender hasEPD renderOk mood) s
    let s := { r.state with needsRender := false }
    ⟨{ s with rendering := false }, r.commits, none⟩
  else ⟨s, [], none⟩

/-- `MenuStateMachine.request_render` (lines 798-801). -/
def requestRender (s : MSMState) : MSMState :=
  { s with needsRender := true }

/-- Animation-state well-formedness: the frame index is in range whenever a
frame sequence is loaded.  Holds at construction and is preserved by every
operation on the animation state. -/
def TamaInv (t : TamaState) : Prop :=
  t.animationFrames = [] ∨ t.currentFrame < t.animationFrames.length

instance (t : TamaState) : Decidable (TamaInv t) := by
  unfold TamaInv; infer_instance

/-! ## Supporting lemmas -/

/-- Every mood's frame sequence is non-empty (shortest is 2 frames). -/
theorem getAnimationFrames_ne_nil (mood : Mood) : getAnimationFrames mood ≠ [] := by
  cases mood <;> decide

/-- After mood synchronisation the sprite lookup of `render` is in range:
no `IndexError` is possible. -/
theorem spriteFilename_moodSync_isSome (mood : Mood) (t : TamaState)
    (hinv : TamaInv t) : (spriteFilename mood (moodSync mood t)).isSome := by
  have hsome : ∀ (l : List String) (n : Nat), n < l.length → (l.get? n).isSome := by
    intro l n h
    simp [List.get?_eq_getElem?, List.getElem?_eq_getElem h]
  unfold moodSync spriteFilename
  by_cases hm : some mood ≠ t.currentMood
  · rw [if_pos hm]
    have hne := getAnimationFrames_ne_nil mood
    have hpos : 0 < (getAnimationFrames mood).length :=
      List.length_pos_of_ne_nil hne
    rw [if_neg (by simpa [List.isEmpty_iff] using hne)]
    exact hsome _ _ hpos
  · rw [if_neg hm]
    rcases hinv with hnil | hlt
    · rw [if_pos (by simp [hnil])]
      rfl
    · rw [if_neg (by
        simp only [List.isEmpty_iff]
        intro hfalse
        rw [hfalse] at hlt
        simp at hlt)]
      exact hsome _ _ hlt

/-- `moodSync` never touches the base-image flag. -/
theorem moodSync_baseImageSet (mood : Mood) (t : TamaState) :
    (moodSync mood t).baseImageSet = t.baseImageSet := by
  unfold moodSync
  by_cases hm : some mood ≠ t.currentMood
  · rw [if_pos hm]
  · rw [if_neg hm]

/-- `moodSync` preserves the frame-index invariant. -/
theorem moodSync_inv (mood : Mood) (t : TamaState) (hinv : TamaInv t) :
    TamaInv (moodSync mood t) := by
  unfold moodSync
  by_cases hm : some mood ≠ t.currentMood
  · rw [if_pos hm]
    right
    exact List.length_pos_of_ne_nil (getAnimationFrames_ne_nil mood)
  · rw [if_neg hm]
    exact hinv

/-- `advanceFrame` preserves the frame-index invariant. -/
theorem advanceFrame_inv (t : TamaState) (hinv : TamaInv t) :
    TamaInv (advanceFrame t) := by
  unfold advanceFrame
  by_cases he : t.animationFrames.isEmpty
  · rw [if_pos he]
    exact hinv
  · rw [if_neg he]
    right
    have hpos : 0 < t.animationFrames.length := by
      cases hf : t.animationFrames with
      | nil => rw [hf] at he; simp at he
      | cons a l => simp [hf]
    exact Nat.mod_lt _ hpos

/-- A successful base render (`render_full` / `render(is_base_render=True)`):
one full commit, base image established exactly under EPD hardware. -/
theorem tamaRender_base (hasEPD : Bool) (mood : Mood) (t : TamaState)
    (hinv : TamaInv t) :
    tamaRender hasEPD true true mood t =
      (if hasEPD then { moodSync mood t with baseImageSet := true }
       else moodSync mood t, some .fullCommit, none) := by
  obtain ⟨x, hx⟩ := Option.isSome_iff_exists.mp
    (spriteFilename_moodSync_isSome mood t hinv)
  simp only [tamaRender]
  rw [hx]
  simp

/-- A successful non-base render on an unset base image takes the full
branch as well. -/
theorem tamaRender_unset (hasEPD : Bool) (mood : Mood) (t : TamaState)
    (hinv : TamaInv t) (hbase : t.baseImageSet = false) :
    tamaRender hasEPD true false mood t =
      (if hasEPD then { moodSync mood t with baseImageSet := true }
       else moodSync mood t, some .fullCommit, none) := by
  obtain ⟨x, hx⟩ := Option.isSome_iff_exists.mp
    (spriteFilename_moodSync_isSome mood t hinv)
  simp only [tamaRender]
  rw [hx]
  simp [moodSync_baseImageSet, hbase]

/-- `tamaRender` preserves the frame-index invariant (it only mood-syncs and
possibly sets the base flag). -/
theorem tamaRender_inv (hasEPD ok isBaseRender : Bool) (mood : Mood)
    (t : TamaState) (hinv : TamaInv t) :
    TamaInv (tamaRender hasEPD ok isBaseRender mood t).1 := by
  have hsync := moodSync_inv mood t hinv
  simp only [tamaRender]
  cases hx : spriteFilename mood (moodSync mood t) with
  | none => simp only [hx]; exact hsync
  | some v =>
    simp only [hx]
    by_cases hok : ok
    · by_cases hb : (isBaseRender || !(moodSync mood t).baseImageSet) = true
      · simp only [hok, hb, Bool.not_true, if_false, if_true]
        cases hasEPD with
        | false => simpa using hsync
        | true =>
          simp only [if_true]
          rcases hsync with hnil | hlt
          · left; simpa using hnil
          · right; simpa using hlt
      · simp only [hok, hb, Bool.not_true, if_false]
        simpa using hsync
    · simp only [Bool.not_eq_true] at hok
      simp only [hok, Bool.not_false, if_true]
      exact hsync

end EinkPetClock

namespace EinkPetClock

/-! ## Claim theorems -/

/-- C6: with the capacity-1 handoff queue, enqueuing `ActionPress` and then
`GoPress` before either is dequeued leaves only `ActionPress` in the slot
(`GoPress` is dropped, never buffered or reordered), and the consumer's
`get_event` observes only `ActionPress`, after which the queue is empty. -/
theorem C6_single_slot_queue_coalesces :
    enqueueEvent .goPress (enqueueEvent .actionPress (none : EventSlot)) =
      some ButtonEvent.actionPress ∧
    getEvent (enqueueEvent .goPress (enqueueEvent .actionPress (none : EventSlot))) =
      (some ButtonEvent.actionPress, (none : EventSlot)) ∧
    hasEvent (getEvent (enqueueEvent .goPress
      (enqueueEvent .actionPress (none : EventSlot)))).2 = false :=
  ⟨rfl, rfl, rfl⟩

/-- C10: `advance_frame` is total and safe: on an empty frame sequence (as at
construction) it leaves the state unchanged and performs no modulo-by-zero;
on a non-empty sequence the frame index stays strictly below the sequence
length after every call. -/
theorem C10_advanceFrame_total_safe :
    tamaInit.animationFrames = [] ∧
    (∀ t : TamaState, t.animationFrames = [] → advanceFrame t = t) ∧
    (∀ t : TamaState, t.animationFrames ≠ [] →
      (advanceFrame t).animationFrames = t.animationFrames ∧
      (advanceFrame t).currentFrame < t.animationFrames.length) := by
  refine ⟨rfl, ?_, ?_⟩
  · intro t h
    unfold advanceFrame
    rw [if_pos (by simp [h])]
  · intro t h
    unfold advanceFrame
    rw [if_neg (by simpa [List.isEmpty_iff] using h)]
    exact ⟨rfl, Nat.mod_lt _ (List.length_pos_of_ne_nil h)⟩

/-- Witness for C10 at concrete states: the freshly constructed menu (empty
sequence) and a one-frame sequence. -/
theorem C10_witness :
    advanceFrame tamaInit = tamaInit ∧
    (advanceFrame { tamaInit with animationFrames := ["a.png"] }).currentFrame <
      ({ tamaInit with animationFrames := ["a.png"] } : TamaState).animationFrames.length :=
  ⟨C10_advanceFrame_total_safe.2.1 tamaInit rfl,
   (C10_advanceFrame_total_safe.2.2 { tamaInit with animationFrames := ["a.png"] }
      (by decide)).2⟩

/-- C9: a mood change observed during a render or sprite update replaces the
frame sequence and resets the frame index to 0 before any frame lookup; the
frame-index-in-range invariant holds initially and is preserved by every
animation operation, so the index used to select a sprite never reaches the
length of the sequence it indexes. -/
theorem C9_mood_change_resets_frame :
    TamaInv tamaInit ∧
    (∀ t, TamaInv t → TamaInv (advanceFrame t)) ∧
    (∀ (mood : Mood) (t), TamaInv t → TamaInv (moodSync mood t)) ∧
    (∀ (hasEPD ok isBase : Bool) (mood : Mood) (t), TamaInv t →
      TamaInv (tamaRender hasEPD ok isBase mood t).1) ∧
    (∀ (mood : Mood) (t), TamaInv t →
      (spriteFilename mood (moodSync mood t)).isSome) ∧
    (∀ (mood : Mood) (t), some mood ≠ t.currentMood →
      (moodSync mood t).animationFrames = getAnimationFrames mood ∧
      (moodSync mood t).currentFrame = 0) := by
  refine ⟨Or.inl rfl, advanceFrame_inv, fun mood t h => moodSync_inv mood t h,
    fun hasEPD ok isBase mood t h => tamaRender_inv hasEPD ok isBase mood t h,
    fun mood t h => spriteFilename_moodSync_isSome mood t h, ?_⟩
  intro mood t hm
  unfold moodSync
  rw [if_pos hm]
  exact ⟨rfl, rfl⟩

/-- Witness for C9: switching from the 8-frame neutral sequence at frame
index 6 to the 5-frame happy sequence resets the index to 0 and the lookup
stays in range. -/
theorem C9_witness :
    ((moodSync .happy
        { currentFrame := 6, animationFrames := getAnimationFrames .neutral,
          currentMood := some .neutral, baseImageSet := true }).animationFrames =
      getAnimationFrames .happy ∧
     (moodSync .happy
        { currentFrame := 6, animationFrames := getAnimationFrames .neutral,
          currentMood := some .neutral, baseImageSet := true }).currentFrame = 0) ∧
    (spriteFilename .happy (moodSync .happy
        { currentFrame := 6, animationFrames := getAnimationFrames .neutral,
          currentMood := some .neutral, baseImageSet := true })).isSome :=
  ⟨C9_mood_change_resets_frame.2.2.2.2.2 .happy
      { currentFrame := 6, animationFrames := getAnimationFrames .neutral,
        currentMood := some .neutral, baseImageSet := true } (by decide),
   C9_mood_change_resets_frame.2.2.2.2.1 .happy
      { currentFrame := 6, animationFrames := getAnimationFrames .neutral,
        currentMood := some .neutral, baseImageSet := true } (by decide)⟩

/-- C3: under EPD hardware, a partial-request issued before the base image is
established (a plain `render`, or `update_time_only` / `update_sprite_only`
before any full render) always resolves to a full commit that establishes the
base image; once the flag is set, the field updaters honor partial requests. -/
theorem C3_partial_gated_by_base_image :
    (∀ (mood : Mood) (t), TamaInv t → t.baseImageSet = false →
      (tamaRender true true false mood t).2.1 = some .fullCommit ∧
      (tamaRender true true false mood t).1.baseImageSet = true ∧
      (tamaRender true true false mood t).2.2 = none) ∧
    (∀ (dv : Bool) (mood : Mood) (t), TamaInv t → t.baseImageSet = false →
      (updateTimeOnly true dv true mood t).2.1 = some .fullCommit ∧
      (updateTimeOnly true dv true mood t).1.baseImageSet = true ∧
      (updateTimeOnly true dv true mood t).2.2 = none) ∧
    (∀ (dv se : Bool) (mood : Mood) (t), TamaInv t → t.baseImageSet = false →
      (updateSpriteOnly true dv se true mood t).2.1 = some .fullCommit ∧
      (updateSpriteOnly true dv se true mood t).1.baseImageSet = true ∧
      (updateSpriteOnly true dv se true mood t).2.2 = none) ∧
    (∀ (mood : Mood) (t), t.baseImageSet = true →
      updateTimeOnly true true true mood t = (t, some .partialCommit, none)) ∧
    (∀ (mood : Mood) (t), TamaInv t → t.baseImageSet = true →
      updateSpriteOnly true true true true mood t =
        (moodSync mood t, some .partialCommit, none)) := by
  have hbase : ∀ (mood : Mood) (t : TamaState), TamaInv t →
      tamaRenderFull true true mood t =
        ({ moodSync mood t with baseImageSet := true }, some .fullCommit, none) := by
    intro mood t hinv
    unfold tamaRenderFull
    rw [tamaRender_base true mood t hinv]
    simp
  refine ⟨?_, ?_, ?_, ?_, ?_⟩
  · intro mood t hinv hb
    rw [tamaRender_unset true mood t hinv hb]
    exact ⟨rfl, by simp, rfl⟩
  · intro dv mood t hinv hb
    unfold updateTimeOnly
    rw [if_pos (by simp [hb])]
    rw [hbase mood t hinv]
    exact ⟨rfl, rfl, rfl⟩
  · intro dv se mood t hinv hb
    unfold updateSpriteOnly
    rw [if_pos (by simp [hb])]
    rw [hbase mood t hinv]
    exact ⟨rfl, rfl, rfl⟩
  · intro mood t hb
    unfold updateTimeOnly
    rw [if_neg (by simp [hb]), if_neg (by simp)]
    simp
  · intro mood t hinv hb
    have hlookup : (if (moodSync mood t).animationFrames.isEmpty then
        some "neutral.png"
      else (moodSync mood t).animationFrames.get? (moodSync mood t).currentFrame).isSome := by
      by_cases he : (moodSync mood t).animationFrames.isEmpty
      · rw [if_pos he]; rfl
      · rw [if_neg he]
        rcases moodSync_inv mood t hinv with hnil | hlt
        · exact absurd (by simp [hnil]) he
        · simp [List.get?_eq_getElem?, List.getElem?_eq_getElem hlt]
    obtain ⟨v, hv⟩ := Option.isSome_iff_exists.mp hlookup
    simp only [updateSpriteOnly]
    rw [if_neg (by simp [hb]), if_neg (by simp), hv]
    simp

/-- Witness for C3 at the freshly constructed menu state (no base image)
and at a base-established state. -/
theorem C3_witness :
    ((updateTimeOnly true true true .neutral tamaInit).2.1 = some .fullCommit ∧
     (updateTimeOnly true true true .neutral tamaInit).1.baseImageSet = true ∧
     (updateTimeOnly true true true .neutral tamaInit).2.2 = none) ∧
    updateTimeOnly true true true .neutral { tamaInit with baseImageSet := true } =
      ({ tamaInit with baseImageSet := true }, some .partialCommit, none) :=
  ⟨C3_partial_gated_by_base_image.2.1 true .neutral tamaInit (Or.inl rfl) rfl,
   C3_partial_gated_by_base_image.2.2.2.1 .neutral
     { tamaInit with baseImageSet := true } rfl⟩

/-- One partial request below the forced-full threshold refreshes partially
and leaves `last_full_refresh` untouched. -/
theorem displayStep_under_limit (c f : Nat) (b : Bool)
    (h : c + 1 - f < fullRefreshCycles) :
    displayStep true true ⟨c, f, b⟩ = (⟨c + 1, f, true⟩, some .partialRefresh) := by
  have hd : decide (fullRefreshCycles ≤ c + 1 - f) = false :=
    decide_eq_false (Nat.not_le.mpr h)
  simp [displayStep, hd]

/-- One partial request at or past the forced-full threshold is upgraded to a
full refresh and resets `last_full_refresh`. -/
theorem displayStep_at_limit (c f : Nat) (b : Bool)
    (h : fullRefreshCycles ≤ c + 1 - f) :
    displayStep true true ⟨c, f, b⟩ = (⟨c + 1, c + 1, true⟩, some .fullRefresh) := by
  have hd : decide (fullRefreshCycles ≤ c + 1 - f) = true := decide_eq_true h
  simp [displayStep, hd]

/-- Unfolding of one step of `runPartialRequests` along a known
`displayStep` result. -/
theorem runPartialRequests_succ (n : Nat) (s s' : DispState)
    (k : Option RefreshKind) (hstep : displayStep true true s = (s', k)) :
    runPartialRequests (n + 1) s =
      ((runPartialRequests n s').1, k.toList ++ (runPartialRequests n s').2) := by
  simp only [runPartialRequests]
  rw [hstep]

/-- From a state `j` partial updates after its last full refresh, the next
`n + 1` partial requests (with `j + n + 1` reaching the cycle limit) refresh
partially `n` times and are then forced full, resetting the counters. -/
theorem runPartial_seg (f : Nat) : ∀ (n j : Nat) (b : Bool),
    j + n + 1 = fullRefreshCycles →
    runPartialRequests (n + 1) ⟨f + j, f, b⟩ =
      (⟨f + fullRefreshCycles, f + fullRefreshCycles, true⟩,
       List.replicate n RefreshKind.partialRefresh ++ [RefreshKind.fullRefresh]) := by
  intro n
  induction n with
  | zero =>
    intro j b h
    have hstep := displayStep_at_limit (f + j) f b (by omega)
    have hc : f + j + 1 = f + fullRefreshCycles := by omega
    rw [hc] at hstep
    rw [runPartialRequests_succ 0 _ _ _ hstep]
    simp [runPartialRequests]
  | succ n ih =>
    intro j b h
    have hstep := displayStep_under_limit (f + j) f b (by omega)
    have hc : f + j + 1 = f + (j + 1) := by omega
    rw [hc] at hstep
    rw [runPartialRequests_succ (n + 1) _ _ _ hstep]
    rw [ih (j + 1) true (by omega)]
    simp [List.replicate_succ]

/-- C2 counterexample: from a fresh display, eleven consecutive commit
requests with `requestPartial = true` produce nine partial refreshes, a
forced full refresh on the 10th request, and a partial refresh again on the
11th — the 11th commit is not a full refresh, and ten consecutive partial
refreshes never occur. -/
theorem C2_counterexample_eleventh_is_partial :
    (runPartialRequests 11 dispInit).2 =
      [RefreshKind.partialRefresh, .partialRefresh, .partialRefresh,
       .partialRefresh, .partialRefresh, .partialRefresh, .partialRefresh,
       .partialRefresh, .partialRefresh, .fullRefresh, .partialRefresh] := by
  decide

/-- C2 amended: starting anywhere just after a full refresh
(`last_full_refresh = update_count = k`), ten consecutive partial requests
yield nine partial refreshes and a forced full refresh on the 10th request
(when `update_count - last_full_refresh` reaches
`FULL_REFRESH_CYCLES = 10`), which resets the counters — so at most nine
partial refreshes separate two full refreshes, never more than the limit. -/
theorem C2_amended_forced_full_cycle (k : Nat) (b : Bool) :
    runPartialRequests 10 ⟨k, k, b⟩ =
      (⟨k + 10, k + 10, true⟩,
       List.replicate 9 RefreshKind.partialRefresh ++ [RefreshKind.fullRefresh]) := by
  have h := runPartial_seg k 9 0 b (by decide)
  rw [Nat.add_zero] at h
  exact h

/-- `runTamaRender` only touches the `tama` component of the machine state. -/
theorem runTamaRender_fields (hasEPD ok isBase : Bool) (mood : Mood) (s : MSMState) :
    (runTamaRender hasEPD ok isBase mood s).1.currentMenuIndex = s.currentMenuIndex ∧
    (runTamaRender hasEPD ok isBase mood s).1.renderFailures = s.renderFailures ∧
    (runTamaRender hasEPD ok isBase mood s).1.rendering = s.rendering ∧
    (runTamaRender hasEPD ok isBase mood s).1.inTransition = s.inTransition ∧
    (runTamaRender hasEPD ok isBase mood s).1.needsRender = s.needsRender ∧
    (runTamaRender hasEPD ok isBase mood s).1.lastButtonPress = s.lastButtonPress := by
  rcases htr : tamaRender hasEPD ok isBase mood s.tama with ⟨t, c, r⟩
  simp [runTamaRender, htr]

/-- C1: the claimed invariant fails in the code.  A completed `handle_return`
from menu index 1 (guards clear, throttle satisfied, render succeeding)
returns normally with `_rendering` cleared but `_in_transition` still `true`:
the `finally` block clears `_in_transition` only when `current_menu_index !=
0`, yet the transition just set the index to 0.  Afterwards every
`next_menu` call is rejected by the `_in_transition` guard. -/
theorem C1_handle_return_leaves_in_transition :
    (handleReturn true true true .neutral 1000
        { msmInit with currentMenuIndex := 1 }).raised = none ∧
    (handleReturn true true true .neutral 1000
        { msmInit with currentMenuIndex := 1 }).state.rendering = false ∧
    (handleReturn true true true .neutral 1000
        { msmInit with currentMenuIndex := 1 }).state.inTransition = true ∧
    (nextMenu true true true .neutral 100000
        (handleReturn true true true .neutral 1000
          { msmInit with currentMenuIndex := 1 }).state) =
      ⟨(handleReturn true true true .neutral 1000
          { msmInit with currentMenuIndex := 1 }).state, [], none⟩ := by
  decide

/-- C4: three consecutive render exceptions while the active menu index is 2
leave the index at 2 for the first two failures; the third reaches the
threshold, forces `current_menu_index = 0`, resets `_render_failures = 0`,
and attempts exactly one recovery render of the Home menu. -/
theorem C4_three_failures_force_home (hasEPD recoveryOk : Bool) (mood : Mood) :
    (safeRender hasEPD recoveryOk mood (runOtherRender false true)
        { msmInit with currentMenuIndex := 2 }).state.currentMenuIndex = 2 ∧
    (safeRender hasEPD recoveryOk mood (runOtherRender false true)
        { msmInit with currentMenuIndex := 2 }).state.renderFailures = 1 ∧
    (safeRender hasEPD recoveryOk mood (runOtherRender false true)
        { msmInit with currentMenuIndex := 2 }).recoveryAttempts = 0 ∧
    (safeRender hasEPD recoveryOk mood (runOtherRender false true)
        (safeRender hasEPD recoveryOk mood (runOtherRender false true)
          { msmInit with currentMenuIndex := 2 }).state).state.currentMenuIndex = 2 ∧
    (safeRender hasEPD recoveryOk mood (runOtherRender false true)
        (safeRender hasEPD recoveryOk mood (runOtherRender false true)
          { msmInit with currentMenuIndex := 2 }).state).state.renderFailures = 2 ∧
    (safeRender hasEPD recoveryOk mood (runOtherRender false true)
        (safeRender hasEPD recoveryOk mood (runOtherRender false true)
          { msmInit with currentMenuIndex := 2 }).state).recoveryAttempts = 0 ∧
    (safeRender hasEPD recoveryOk mood (runOtherRender false true)
        (safeRender hasEPD recoveryOk mood (runOtherRender false true)
          (safeRender hasEPD recoveryOk mood (runOtherRender false true)
            { msmInit with currentMenuIndex := 2 }).state).state).state.currentMenuIndex
      = 0 ∧
    (safeRender hasEPD recoveryOk mood (runOtherRender false true)
        (safeRender hasEPD recoveryOk mood (runOtherRender false true)
          (safeRender hasEPD recoveryOk mood (runOtherRender false true)
            { msmInit with currentMenuIndex := 2 }).state).state).state.renderFailures
      = 0 ∧
    (safeRender hasEPD recoveryOk mood (runOtherRender false true)
        (safeRender hasEPD recoveryOk mood (runOtherRender false true)
          (safeRender hasEPD recoveryOk mood (runOtherRender false true)
            { msmInit with currentMenuIndex := 2 }).state).state).recoveryAttempts
      = 1 := by
  cases hasEPD <;> cases recoveryOk <;> cases mood <;> decide

/-- C5 counterexample: with the failure counter at 2, a third render
exception reaches the threshold and the recovery render of Home itself
raises — yet `_safe_render` returns normally (`raised = none`): the inner
`except` only logs "Fatal", so nothing propagates to the caller. -/
theorem C5_counterexample_recovery_exception_absorbed :
    (safeRender true false .neutral (runOtherRender false true)
        { msmInit with currentMenuIndex := 2, renderFailures := 2 }).raised = none ∧
    (safeRender true false .neutral (runOtherRender false true)
        { msmInit with currentMenuIndex := 2, renderFailures := 2 }).success = false ∧
    (safeRender true false .neutral (runOtherRender false true)
        { msmInit with currentMenuIndex := 2, renderFailures := 2 }).recoveryAttempts
      = 1 := by
  decide

/-- C5 amended: when the threshold is reached and the single recovery render
of Home itself raises, `_safe_render` catches the exception (logging it as
fatal), forces the index to 0 with the counter reset, makes no further retry
(exactly one recovery attempt), and returns `False` — the failure does not
propagate out of this layer. -/
theorem C5_amended_recovery_failure_absorbed (hasEPD : Bool) (mood : Mood)
    (s : MSMState) (h : s.renderFailures = 2) :
    (safeRender hasEPD false mood (runOtherRender false true) s).raised = none ∧
    (safeRender hasEPD false mood (runOtherRender false true) s).success = false ∧
    (safeRender hasEPD false mood (runOtherRender false true) s).recoveryAttempts = 1 ∧
    (safeRender hasEPD false mood (runOtherRender false true) s).state.currentMenuIndex
      = 0 ∧
    (safeRender hasEPD false mood (runOtherRender false true) s).state.renderFailures
      = 0 := by
  have hattempt : runOtherRender false true s = (s, [], some "render exception") := rfl
  have hth : maxRenderFailures ≤ s.renderFailures + 1 := by
    rw [h]; decide
  simp only [safeRender, hattempt]
  rw [if_pos hth]
  rcases hrun : runTamaRender hasEPD false false mood
      { s with currentMenuIndex := 0, renderFailures := 0 } with ⟨s3, cs2, r2⟩
  have hfields := runTamaRender_fields hasEPD false false mood
      { s with currentMenuIndex := 0, renderFailures := 0 }
  rw [hrun] at hfields
  cases r2 with
  | none => exact ⟨rfl, rfl, rfl, hfields.1, hfields.2.1⟩
  | some e => exact ⟨rfl, rfl, rfl, hfields.1, hfields.2.1⟩

/-- Witness for the amended C5 at a concrete state with two prior failures. -/
theorem C5_amended_witness :
    (safeRender true false .neutral (runOtherRender false true)
        { msmInit with currentMenuIndex := 2, renderFailures := 2 }).raised = none ∧
    (safeRender true false .neutral (runOtherRender false true)
        { msmInit with currentMenuIndex := 2, renderFailures := 2 }).success = false ∧
    (safeRender true false .neutral (runOtherRender false true)
        { msmInit with currentMenuIndex := 2, renderFailures := 2 }).recoveryAttempts
      = 1 ∧
    (safeRender true false .neutral (runOtherRender false true)
        { msmInit with currentMenuIndex := 2, renderFailures := 2
        }).state.currentMenuIndex = 0 ∧
    (safeRender true false .neutral (runOtherRender false true)
        { msmInit with currentMenuIndex := 2, renderFailures := 2
        }).state.renderFailures = 0 :=
  C5_amended_recovery_failure_absorbed true .neutral
    { msmInit with currentMenuIndex := 2, renderFailures := 2 } rfl

/-- The throttle accepts a press at least `_min_button_interval` after the
last accepted one, recording the new press time. -/
theorem canProcessButton_accept (now : Int) (s : MSMState)
    (h : minButtonInterval ≤ now - s.lastButtonPress) :
    canProcessButton now s = (true, { s with lastButtonPress := now }) := by
  unfold canProcessButton
  rw [if_neg (not_lt.mpr h)]

/-- The throttle rejects a press arriving within `_min_button_interval` of
the last accepted one, leaving the state unchanged. -/
theorem canProcessButton_reject (now : Int) (s : MSMState)
    (h : now - s.lastButtonPress < minButtonInterval) :
    canProcessButton now s = (false, s) := by
  unfold canProcessButton
  rw [if_pos h]

/-- An accepted `next_menu` whose destination is not Home: index advanced
mod 4, every base image invalidated, destination rendered full, flags
cleared, failure counter reset by the successful render. -/
theorem nextMenu_accepted_toOther (hasEPD recoveryOk : Bool) (mood : Mood)
    (now : Int) (s : MSMState) (hr : s.rendering = false)
    (hi : s.inTransition = false)
    (ht : minButtonInterval ≤ now - s.lastButtonPress)
    (hd : (s.currentMenuIndex + 1) % numMenus ≠ 0) :
    nextMenu hasEPD true recoveryOk mood now s =
      ⟨{ s with currentMenuIndex := (s.currentMenuIndex + 1) % numMenus,
                needsRender := false, tama := resetBaseImage s.tama,
                lastButtonPress := now, renderFailures := 0,
                rendering := false, inTransition := false },
        [.fullCommit], none⟩ := by
  have hdb : ((s.currentMenuIndex + 1) % numMenus == 0) = false :=
    beq_eq_false_iff_ne.mpr hd
  simp only [nextMenu, hr, hi, Bool.or_self, Bool.false_eq_true, if_false,
    canProcessButton_accept now s ht, hdb, safeRender, runOtherRender, if_true]

/-- An accepted `next_menu` whose destination is Home: the transition's own
`render_full` establishes a fresh base image (under EPD hardware). -/
theorem nextMenu_accepted_toHome (hasEPD recoveryOk : Bool) (mood : Mood)
    (now : Int) (s : MSMState) (hr : s.rendering = false)
    (hi : s.inTransition = false)
    (ht : minButtonInterval ≤ now - s.lastButtonPress)
    (hinv : TamaInv s.tama)
    (hd : (s.currentMenuIndex + 1) % numMenus = 0) :
    nextMenu hasEPD true recoveryOk mood now s =
      ⟨{ s with currentMenuIndex := 0,
                needsRender := false,
                tama := if hasEPD then
                    { moodSync mood (resetBaseImage s.tama) with baseImageSet := true }
                  else moodSync mood (resetBaseImage s.tama),
                lastButtonPress := now, renderFailures := 0,
                rendering := false, inTransition := false },
        [.fullCommit], none⟩ := by
  have hdb : ((s.currentMenuIndex + 1) % numMenus == 0) = true := beq_iff_eq.mpr hd
  have hbase := tamaRender_base hasEPD mood (resetBaseImage s.tama) hinv
  simp only [nextMenu, hr, hi, Bool.or_self, Bool.false_eq_true, if_false,
    canProcessButton_accept now s ht, hdb, if_true, safeRender, runTamaRender]
  simp only [hbase, Option.toList_some, hd]

/-- An accepted `handle_return` from a non-Home menu: back to index 0, every
base image invalidated and then re-established by the transition's own
`render_full` (under EPD hardware), `_rendering` cleared — but
`_in_transition` left `true` by the `finally`'s `!= 0` condition. -/
theorem handleReturn_accepted_fromOther (hasEPD recoveryOk : Bool) (mood : Mood)
    (now : Int) (s : MSMState) (hr : s.rendering = false)
    (hi : s.inTransition = false)
    (ht : minButtonInterval ≤ now - s.lastButtonPress)
    (hinv : TamaInv s.tama) (hidx : s.currentMenuIndex ≠ 0) :
    handleReturn hasEPD true recoveryOk mood now s =
      ⟨{ s with currentMenuIndex := 0,
                needsRender := false,
                tama := if hasEPD then
                    { moodSync mood (resetBaseImage s.tama) with baseImageSet := true }
                  else moodSync mood (resetBaseImage s.tama),
                lastButtonPress := now, renderFailures := 0,
                rendering := false, inTransition := true },
        [.fullCommit], none⟩ := by
  have hdb : (s.currentMenuIndex == 0) = false := beq_eq_false_iff_ne.mpr hidx
  have hbase := tamaRender_base hasEPD mood (resetBaseImage s.tama) hinv
  simp only [handleReturn, hr, hi, Bool.or_self, Bool.false_eq_true, if_false,
    canProcessButton_accept now s ht, hdb, safeRender, runTamaRender]
  simp only [hbase, Option.toList_some]
  simp

/-- C7: with the 300 ms throttle, a first `Next` press (arriving at least the
throttle interval after the last accepted press) advances the menu index by
one mod 4 — a real change while the index is in range — and a second `Next`
press 50 ms later is dropped by the throttle: no state change, no commit, so
exactly one index change occurs. -/
theorem C7_second_press_within_50ms_dropped (hasEPD recoveryOk : Bool)
    (mood : Mood) (t1 : Int) (s : MSMState) (hr : s.rendering = false)
    (hi : s.inTransition = false)
    (ht : minButtonInterval ≤ t1 - s.lastButtonPress) (hinv : TamaInv s.tama) :
    (nextMenu hasEPD true recoveryOk mood t1 s).state.currentMenuIndex =
      (s.currentMenuIndex + 1) % numMenus ∧
    (s.currentMenuIndex < numMenus →
      (s.currentMenuIndex + 1) % numMenus ≠ s.currentMenuIndex) ∧
    nextMenu hasEPD true recoveryOk mood (t1 + 50)
        (nextMenu hasEPD true recoveryOk mood t1 s).state =
      ⟨(nextMenu hasEPD true recoveryOk mood t1 s).state, [], none⟩ := by
  by_cases hd : (s.currentMenuIndex + 1) % numMenus = 0
  · rw [nextMenu_accepted_toHome hasEPD recoveryOk mood t1 s hr hi ht hinv hd]
    refine ⟨hd.symm, ?_, ?_⟩
    · intro hlt
      simp only [numMenus] at hlt ⊢
      omega
    · simp only [nextMenu, Bool.or_self, Bool.false_eq_true, if_false]
      rw [canProcessButton_reject (t1 + 50) _ (by simp [minButtonInterval])]
  · rw [nextMenu_accepted_toOther hasEPD recoveryOk mood t1 s hr hi ht hd]
    refine ⟨rfl, ?_, ?_⟩
    · intro hlt
      simp only [numMenus] at hlt ⊢
      omega
    · simp only [nextMenu, Bool.or_self, Bool.false_eq_true, if_false]
      rw [canProcessButton_reject (t1 + 50) _ (by simp [minButtonInterval])]

/-- Witness for C7 from the initial machine state with the first press at
t = 1000 ms. -/
theorem C7_witness :
    (nextMenu true true true .neutral 1000 msmInit).state.currentMenuIndex =
      (msmInit.currentMenuIndex + 1) % numMenus ∧
    ((msmInit.currentMenuIndex + 1) % numMenus ≠ msmInit.currentMenuIndex) ∧
    nextMenu true true true .neutral 1050
        (nextMenu true true true .neutral 1000 msmInit).state =
      ⟨(nextMenu true true true .neutral 1000 msmInit).state, [], none⟩ := by
  have h := C7_second_press_within_50ms_dropped true true .neutral 1000 msmInit
    rfl rfl (by decide) (Or.inl rfl)
  exact ⟨h.1, h.2.1 (by decide), by
    have := h.2.2
    norm_num at this ⊢
    exact this⟩

/-- C8: every accepted menu switch (`next_menu`, and `handle_return` from a
non-Home menu) runs the invalidation loop setting the `base_image_set` flag
of every menu that has one to `false`, and renders the destination with a
full commit; afterwards no menu is eligible for a partial render until its
next full render — specifically, the flag is `false` again unless the
destination was Home, whose own full base render within the transition
re-establishes it (under EPD hardware). -/
theorem C8_menu_switch_invalidates_base (hasEPD recoveryOk : Bool) (mood : Mood)
    (now : Int) (s : MSMState) (hr : s.rendering = false)
    (hi : s.inTransition = false)
    (ht : minButtonInterval ≤ now - s.lastButtonPress) (hinv : TamaInv s.tama) :
    (∀ t : TamaState, (resetBaseImage t).baseImageSet = false) ∧
    (nextMenu hasEPD true recoveryOk mood now s).commits = [MenuCommit.fullCommit] ∧
    ((nextMenu hasEPD true recoveryOk mood now s).state.currentMenuIndex ≠ 0 →
      (nextMenu hasEPD true recoveryOk mood now s).state.tama.baseImageSet = false) ∧
    ((nextMenu hasEPD true recoveryOk mood now s).state.currentMenuIndex = 0 →
      (nextMenu hasEPD true recoveryOk mood now s).state.tama.baseImageSet = hasEPD) ∧
    (s.currentMenuIndex ≠ 0 →
      (handleReturn hasEPD true recoveryOk mood now s).commits =
        [MenuCommit.fullCommit] ∧
      (handleReturn hasEPD true recoveryOk mood now s).state.currentMenuIndex = 0 ∧
      (handleReturn hasEPD true recoveryOk mood now s).state.tama.baseImageSet =
        hasEPD) := by
  refine ⟨fun t => rfl, ?_, ?_, ?_, ?_⟩
  · by_cases hd : (s.currentMenuIndex + 1) % numMenus = 0
    · rw [nextMenu_accepted_toHome hasEPD recoveryOk mood now s hr hi ht hinv hd]
    · rw [nextMenu_accepted_toOther hasEPD recoveryOk mood now s hr hi ht hd]
  · intro hne
    by_cases hd : (s.currentMenuIndex + 1) % numMenus = 0
    · rw [nextMenu_accepted_toHome hasEPD recoveryOk mood now s hr hi ht hinv hd] at hne
      exact absurd rfl hne
    · rw [nextMenu_accepted_toOther hasEPD recoveryOk mood now s hr hi ht hd]
      rfl
  · intro h0
    by_cases hd : (s.currentMenuIndex + 1) % numMenus = 0
    · rw [nextMenu_accepted_toHome hasEPD recoveryOk mood now s hr hi ht hinv hd]
      cases hasEPD with
      | false => simp [moodSync_baseImageSet, resetBaseImage]
      | true => simp
    · rw [nextMenu_accepted_toOther hasEPD recoveryOk mood now s hr hi ht hd] at h0
      exact absurd h0 hd
  · intro hidx
    rw [handleReturn_accepted_fromOther hasEPD recoveryOk mood now s hr hi ht hinv hidx]
    refine ⟨rfl, rfl, ?_⟩
    cases hasEPD with
    | false => simp [moodSync_baseImageSet, resetBaseImage]
    | true => simp

/-- Witness for C8: from menu index 1 at t = 1000 ms, the switch to menu 2
invalidates the Home base image, and a Back from menu 1 re-establishes it
through the transition's own full render. -/
theorem C8_witness :
    (nextMenu true true true .neutral 1000
        { msmInit with currentMenuIndex := 1 }).commits = [MenuCommit.fullCommit] ∧
    (nextMenu true true true .neutral 1000
        { msmInit with currentMenuIndex := 1 }).state.tama.baseImageSet = false ∧
    (handleReturn true true true .neutral 1000
        { msmInit with currentMenuIndex := 1 }).state.tama.baseImageSet = true := by
  have h := C8_menu_switch_invalidates_base true true .neutral 1000
    { msmInit with currentMenuIndex := 1 } rfl rfl (by decide) (Or.inl rfl)
  exact ⟨h.2.1, h.2.2.1 (by decide), (h.2.2.2.2 (by decide)).2.2⟩

end EinkPetClock
